import Mathlib

/-!
Verification development for the Palatine Speech n8n node
(`PalatineSpeechNode.execute` and its helper closures).

The node's helpers operate on loosely typed JSON values with JavaScript
semantics (truthiness, `||`, `??`, optional chaining).  We embed JSON
values shallowly as `Json`, with `Option Json` standing for a possibly
`undefined` JavaScript value (`none` = `undefined`).  JavaScript numbers
are modelled as integers (`Int`): every numeric literal and default in
the node source is an integer, and no claim depends on fractional or
non-finite values; where `NaN` can arise from a conversion we model it
as `none` in an `Option Int`.
-/

/-- A JSON value, as delivered by the HTTP layer with `json: true`.
Object fields are an association list; lookup takes the first match
(keys produced by JSON parsing are unique). -/
inductive Json where
  | null
  | bool (b : Bool)
  | num (n : Int)
  | str (s : String)
  | arr (elems : List Json)
  | obj (fields : List (String × Json))

/-- First-match lookup of a key in an object's field list. -/
def lookupField : List (String × Json) → String → Option Json
  | [], _ => none
  | (k, v) :: rest, key => if k = key then some v else lookupField rest key

/-- JavaScript property access `x?.k` on a possibly-undefined value:
`undefined` on `undefined`/`null`/primitives/arrays (none of the keys
the node probes is an own property of those), the field's value on
objects. -/
def jget : Option Json → String → Option Json
  | some (.obj fields), key => lookupField fields key
  | _, _ => none

/-- JavaScript truthiness of a possibly-undefined value.  `undefined`,
`null`, `false`, `0` and `""` are falsy; objects and arrays are always
truthy.  (`NaN` is not representable in the integer model.) -/
def truthy : Option Json → Bool
  | none => false
  | some .null => false
  | some (.bool b) => b
  | some (.num n) => n != 0
  | some (.str s) => s != ""
  | some (.arr _) => true
  | some (.obj _) => true

/-- JavaScript `a || b` on possibly-undefined values. -/
def jsOr (a b : Option Json) : Option Json :=
  if truthy a then a else b

/-- JavaScript `a || b` on strings (the only falsy string is `""`). -/
def jsOrStr (a b : String) : String :=
  if a = "" then b else a

/-- JavaScript `a ?? b` (nullish coalescing) on possibly-undefined
values: `b` exactly when `a` is `undefined` or `null`. -/
def jsNullish (a b : Option Json) : Option Json :=
  match a with
  | none => b
  | some .null => b
  | some v => some v

/-- The whitespace characters recognised by JavaScript's
`String.prototype.trim` that fit the scope of this model: ASCII blanks,
line terminators and NBSP. -/
def jsWhitespace (c : Char) : Bool :=
  c = ' ' || c = '\t' || c = '\n' || c = '\r' || c = '\x0b' || c = '\x0c' || c = '\u00A0'

/-- JavaScript `s.trim()`. -/
def jsTrim (s : String) : String :=
  String.mk (((s.data.dropWhile jsWhitespace).reverse.dropWhile jsWhitespace).reverse)

/-- JavaScript `s.toLowerCase()` on the ASCII fragment the status
strings live in. -/
def jsToLower (s : String) : String :=
  String.mk (s.data.map Char.toLower)

/-- `normalizeStatus` from the node source:
`(s) => (typeof s === 'string' ? s.trim().toLowerCase() : '')`. -/
def normalizeStatus : Option Json → String
  | some (.str s) => jsToLower (jsTrim s)
  | _ => ""

mutual

/-- JavaScript `String(v)` / template-literal conversion of a defined
value: strings unchanged, `null` prints as `"null"`, booleans and
numbers in decimal, arrays join their elements with `,` (with `null`
elements joining as empty), plain objects print `[object Object]`. -/
def jsToString : Json → String
  | .null => "null"
  | .bool true => "true"
  | .bool false => "false"
  | .num n => toString n
  | .str s => s
  | .arr xs => jsJoinArr xs
  | .obj _ => "[object Object]"

/-- `Array.prototype.join` with the default `,` separator, as used by
the implicit `toString` of a JavaScript array. -/
def jsJoinArr : List Json → String
  | [] => ""
  | [Json.null] => ""
  | [x] => jsToString x
  | Json.null :: xs => "," ++ jsJoinArr xs
  | x :: xs => jsToString x ++ "," ++ jsJoinArr xs

end

/-- Template-literal conversion of a possibly-undefined value. -/
def jsShow : Option Json → String
  | none => "undefined"
  | some v => jsToString v

/-- Lower-case hexadecimal digit, for JSON string escapes. -/
def hexDigit (n : Nat) : Char :=
  if n < 10 then Char.ofNat (48 + n) else Char.ofNat (87 + n)

/-- The escape `JSON.stringify` applies to one character of a string. -/
def escapeChar (c : Char) : String :=
  if c = '"' then "\\\""
  else if c = '\\' then "\\\\"
  else if c = '\n' then "\\n"
  else if c = '\r' then "\\r"
  else if c = '\t' then "\\t"
  else if c = '\x08' then "\\b"
  else if c = '\x0c' then "\\f"
  else if c.toNat < 32 then
    "\\u00" ++ String.mk [hexDigit (c.toNat / 16), hexDigit (c.toNat % 16)]
  else String.mk [c]

/-- Escaped body of a JSON string literal. -/
def escapeString (s : String) : String :=
  String.join (s.data.map escapeChar)

mutual

/-- `JSON.stringify` on a defined JSON value. -/
def stringifyJson : Json → String
  | .null => "null"
  | .bool true => "true"
  | .bool false => "false"
  | .num n => toString n
  | .str s => "\"" ++ escapeString s ++ "\""
  | .arr xs => "[" ++ stringifyArr xs ++ "]"
  | .obj fs => "\x7b" ++ stringifyFields fs ++ "\x7d"

/-- Comma-separated serialisation of array elements. -/
def stringifyArr : List Json → String
  | [] => ""
  | [x] => stringifyJson x
  | x :: xs => stringifyJson x ++ "," ++ stringifyArr xs

/-- Comma-separated serialisation of object fields. -/
def stringifyFields : List (String × Json) → String
  | [] => ""
  | [(k, v)] => "\"" ++ escapeString k ++ "\":" ++ stringifyJson v
  | (k, v) :: fs =>
    "\"" ++ escapeString k ++ "\":" ++ stringifyJson v ++ "," ++ stringifyFields fs

end

/-- Digits-only natural number literal; `none` when the list is empty
or holds a non-digit. -/
def parseNatDigits (l : List Char) : Option Nat :=
  if l = [] then none
  else if l.all Char.isDigit then
    some (l.foldl (fun acc c => acc * 10 + (c.toNat - 48)) 0)
  else none

/-- JavaScript `Number(s)` for a string, in the integer fragment of the
model: trimmed empty string is `0`, an optionally signed run of digits
is its value, anything else is `NaN` (`none`).  Fractional, hexadecimal
and exponent numerals denote values outside the integer model and are
not modelled. -/
def parseJsNumber (s : String) : Option Int :=
  match (jsTrim s).data with
  | [] => some 0
  | '-' :: rest => (parseNatDigits rest).map (fun n => -(n : Int))
  | '+' :: rest => (parseNatDigits rest).map (fun n => (n : Int))
  | l => (parseNatDigits l).map (fun n => (n : Int))

/-- JavaScript `Number(v)` on a defined value (`none` = `NaN`).
Numbers are themselves, booleans are `1`/`0`, `null` is `0`, strings
parse as numerals, and arrays and objects convert through their
`toString`. -/
def jsNumber : Json → Option Int
  | .num n => some n
  | .bool b => some (if b then 1 else 0)
  | .null => some 0
  | .str s => parseJsNumber s
  | .arr xs => parseJsNumber (jsToString (.arr xs))
  | .obj fs => parseJsNumber (jsToString (.obj fs))

/-- The terminal-success status strings from `isTerminalSuccess`. -/
def successStatuses : List String := ["completed", "done", "success", "finished"]

/-- The still-running status strings from `isTerminalSuccess`. -/
def processingStatuses : List String := ["queued", "pending", "processing", "running", "in_progress"]

/-- The terminal-failure status strings from `isTerminalFailure`. -/
def failureStatuses : List String := ["failed", "error", "canceled", "cancelled"]

/-- The status-chaining shared by both classifiers:
`normalizeStatus(p?.status) || normalizeStatus(p?.state) || normalizeStatus(p?.task_status)`. -/
def normStatus (p : Option Json) : String :=
  jsOrStr (normalizeStatus (jget p "status"))
    (jsOrStr (normalizeStatus (jget p "state")) (normalizeStatus (jget p "task_status")))

/-- The `hasResult` probe inside `isTerminalSuccess`: one of the
wrapper fields `result`/`data`/`output`/`response` is not `undefined`
(a `null`-valued field counts as present, matching `!== undefined`). -/
def hasResultField (p : Option Json) : Bool :=
  (jget p "result").isSome || (jget p "data").isSome ||
    (jget p "output").isSome || (jget p "response").isSome

/-- `isTerminalSuccess` from the node source. -/
def isTerminalSuccess (p : Option Json) : Bool :=
  let s := normStatus p
  if successStatuses.contains s then true
  else hasResultField p && !(processingStatuses.contains s)

/-- `isTerminalFailure` from the node source. -/
def isTerminalFailure (p : Option Json) : Bool :=
  failureStatuses.contains (normStatus p)

/-- `unwrapFinalPayload` from the node source:
`p?.result ?? p?.data ?? p?.output ?? p?.response ?? p`. -/
def unwrapFinalPayload (p : Option Json) : Option Json :=
  jsNullish (jget p "result")
    (jsNullish (jget p "data")
      (jsNullish (jget p "output")
        (jsNullish (jget p "response") p)))

/-- The guard `!resp || typeof resp !== 'object'` in `extractTaskId`:
only objects and arrays survive it (`null` is caught by `!resp`). -/
def isObjectLike : Option Json → Bool
  | some (.obj _) => true
  | some (.arr _) => true
  | _ => false

/-- `extractTaskId` from the node source:
`resp.task_id || resp.taskId || resp.id || resp.task?.id` behind the
object guard. -/
def extractTaskId (p : Option Json) : Option Json :=
  if isObjectLike p then
    jsOr (jget p "task_id")
      (jsOr (jget p "taskId")
        (jsOr (jget p "id") (jget (jget p "task") "id")))
  else none

/-- The id candidates of `extractTaskId`, in source precedence order. -/
def taskIdCandidates (p : Option Json) : List (Option Json) :=
  [jget p "task_id", jget p "taskId", jget p "id", jget (jget p "task") "id"]

/-- First truthy value of a candidate list; like a JavaScript `||`
chain, the last candidate is returned as-is when every one is falsy. -/
def firstTruthy : List (Option Json) → Option Json
  | [] => none
  | [x] => x
  | x :: xs => if truthy x then x else firstTruthy xs

/-- First present (defined) value of a candidate list, with a default.
This follows the spec's words for identifier extraction and result
unwrapping ("returns the first present value among ..."), for
comparison against the source functions. -/
def firstPresentD : List (Option Json) → Option Json → Option Json
  | [], dflt => dflt
  | x :: xs, dflt =>
    match x with
    | some v => some v
    | none => firstPresentD xs dflt

/-- Modelled from the spec's words for the identifier-extraction claim:
"returns the first present value among a fixed precedence of candidate
field names ... Returns `not present` if the input is not an object or
none of the candidates exist."  Used only to compare the spec's
reading against the source's `extractTaskId`. -/
def extractTaskIdPresence (p : Option Json) : Option Json :=
  if isObjectLike p then firstPresentD (taskIdCandidates p) none else none

/-- The wrapper-field candidates of `unwrapFinalPayload`, in order. -/
def wrapperCandidates (p : Option Json) : List (Option Json) :=
  [jget p "result", jget p "data", jget p "output", jget p "response"]

/-- Modelled from the spec's words for the result-unwrapper claim:
"returns the first present value among result/data/output/response
fields, or the whole payload if none of those wrapper fields exist."
Used only to compare the spec's reading against the source's
`unwrapFinalPayload`. -/
def unwrapFinalPayloadPresence (p : Option Json) : Option Json :=
  firstPresentD (wrapperCandidates p) p

/-- First value of a candidate list that is present and not `null`,
with a default; this is what a JavaScript `??` chain computes. -/
def firstNonNull : List (Option Json) → Option Json → Option Json
  | [], dflt => dflt
  | x :: xs, dflt =>
    match x with
    | some Json.null => firstNonNull xs dflt
    | some v => some v
    | none => firstNonNull xs dflt

/-- Outcome of the per-item poll loop.  Each constructor records how
many status requests were issued; errors record the item index they
were tagged with. -/
inductive PollOutcome where
  | succeeded (final : Option Json) (calls : Nat)
  | failed (message : String) (itemIndex calls : Nat)
  | timedOut (message : String) (itemIndex calls : Nat)

/-- Number of status requests the loop issued. -/
def PollOutcome.calls : PollOutcome → Nat
  | .succeeded _ c => c
  | .failed _ _ c => c
  | .timedOut _ _ c => c

/-- The error text raised on a terminal failure, from the source:
`Task ${taskId} failed: ${p?.error || p?.message || JSON.stringify(p)}`. -/
def failureMessage (taskId : Json) (p : Json) : String :=
  let picked := jsOr (jget (some p) "error") (jget (some p) "message")
  "Task " ++ jsToString taskId ++ " failed: " ++
    (if truthy picked then jsShow picked else stringifyJson p)

/-- The error text raised on poll exhaustion, from the source:
`Task ${taskId} did not complete within polling limit (${maxPollAttempts} attempts)`. -/
def timeoutMessage (taskId : Json) (maxAttempts : Nat) : String :=
  "Task " ++ jsToString taskId ++ " did not complete within polling limit (" ++
    toString maxAttempts ++ " attempts)"

/-- The body of the source's `for (attempt = 1; attempt <= maxPollAttempts; ...)`
loop.  `responses k` is the status payload returned by the `(k+1)`-th
GET of the status endpoint; `made` counts requests already issued and
`remaining` the attempts left.  Each iteration issues one request, then
checks failure first, then success; the sleep between attempts carries
no observable state and is not modelled.  Falling off the end of the
loop raises the timeout error (`if (!completed) throw ...`). -/
def pollAux (responses : Nat → Json) (taskId : Json) (itemIndex maxAttempts : Nat) :
    Nat → Nat → PollOutcome
  | made, 0 => .timedOut (timeoutMessage taskId maxAttempts) itemIndex made
  | made, remaining + 1 =>
    let p := responses made
    if isTerminalFailure (some p) then
      .failed (failureMessage taskId p) itemIndex (made + 1)
    else if isTerminalSuccess (some p) then
      .succeeded (unwrapFinalPayload (some p)) (made + 1)
    else pollAux responses taskId itemIndex maxAttempts (made + 1) remaining

/-- The whole poll loop for one item, entered when a task handle was
extracted. -/
def pollLoop (responses : Nat → Json) (taskId : Json) (itemIndex maxAttempts : Nat) :
    PollOutcome :=
  pollAux responses taskId itemIndex maxAttempts 0 maxAttempts

/-- A status payload on which the loop keeps going: neither classifier
fires. -/
def stillRunning (p : Json) : Prop :=
  isTerminalFailure (some p) = false ∧ isTerminalSuccess (some p) = false

/-- The task the node performs, from the `task` options parameter. -/
inductive TaskKind where
  | transcribe
  | diarize
  | sentiment
  | summarize
deriving DecidableEq

/-- Declared default of the `pollIntervalMs` parameter. -/
def pollIntervalMsDefault : Int := 500

/-- Declared default of the `maxPollAttempts` parameter. -/
def maxPollAttemptsDefault : Int := 200

/-- Declared default of the `pollIntervalMsSummarize` parameter. -/
def pollIntervalMsSummarizeDefault : Int := 20000

/-- Declared default of the `maxPollAttemptsSummarize` parameter. -/
def maxPollAttemptsSummarizeDefault : Int := 500

/-- Host-side `getNodeParameter` for a number-typed parameter read
`as number`: the stored value when the key is set in the node's raw
parameter bag, the declared default otherwise.  The stored value is
converted with JavaScript number semantics, which is where any
non-numeric stored value would end up via the `Math.min`/`Math.max`
clamp anyway (`none` = `NaN`). -/
def readNumParam (params : List (String × Json)) (key : String) (dflt : Int) : Option Int :=
  match lookupField params key with
  | some v => jsNumber v
  | none => some dflt

/-- The summarize-task poll interval before clamping, lines 292–303 of
the source: the `pollIntervalMsSummarize` parameter, except that when
that key was never set and the legacy `pollIntervalMs` key is set to a
number other than `500` and `1000`, the legacy value is preserved. -/
def summarizeIntervalMs (params : List (String × Json)) : Option Int :=
  let base := readNumParam params "pollIntervalMsSummarize" pollIntervalMsSummarizeDefault
  match lookupField params "pollIntervalMsSummarize", lookupField params "pollIntervalMs" with
  | none, some legacyRaw =>
    match jsNumber legacyRaw with
    | some legacy => if legacy ≠ 500 ∧ legacy ≠ 1000 then some legacy else base
    | none => base
  | _, _ => base

/-- The summarize-task max poll attempts before clamping, lines
292–310 of the source: the `maxPollAttemptsSummarize` parameter, except
that when that key was never set and the legacy `maxPollAttempts` key
is set to a number other than `200` and `300`, the legacy value is
preserved. -/
def summarizeMaxAttempts (params : List (String × Json)) : Option Int :=
  let base := readNumParam params "maxPollAttemptsSummarize" maxPollAttemptsSummarizeDefault
  match lookupField params "maxPollAttemptsSummarize", lookupField params "maxPollAttempts" with
  | none, some legacyRaw =>
    match jsNumber legacyRaw with
    | some legacy => if legacy ≠ 200 ∧ legacy ≠ 300 then some legacy else base
    | none => base
  | _, _ => base

/-- The non-summarize poll interval before clamping. -/
def plainIntervalMs (params : List (String × Json)) : Option Int :=
  readNumParam params "pollIntervalMs" pollIntervalMsDefault

/-- The non-summarize max poll attempts before clamping. -/
def plainMaxAttempts (params : List (String × Json)) : Option Int :=
  readNumParam params "maxPollAttempts" maxPollAttemptsDefault

/-- `Math.min(hi, Math.max(lo, v))`, the clamp at lines 317–318. -/
def clampInt (lo hi v : Int) : Int := min hi (max lo v)

/-- The poll interval the loop actually uses, for any task: parameter
resolution (with the summarize legacy override) followed by the clamp
to `[500, 900000]`.  A `NaN` (`none`) propagates through
`Math.min`/`Math.max` unchanged. -/
def effectiveIntervalMs (task : TaskKind) (params : List (String × Json)) : Option Int :=
  (match task with
    | .summarize => summarizeIntervalMs params
    | _ => plainIntervalMs params).map (clampInt 500 900000)

/-- The max attempt count the loop actually uses, for any task, after
the clamp to `[1, 1000]`. -/
def effectiveMaxAttempts (task : TaskKind) (params : List (String × Json)) : Option Int :=
  (match task with
    | .summarize => summarizeMaxAttempts params
    | _ => plainMaxAttempts params).map (clampInt 1 1000)

/-- `summarizePromptRaw`, lines 274–284 of the source: read from the
string-typed `summarizePrompt` parameter (with `''` as the
`getNodeParameter` fallback, then `|| ''`) only when the sub-task is
`user_prompt`; otherwise it keeps its initial `''`. -/
def summarizePromptRaw (summarizeTask : String) (promptParam : Option String) : String :=
  if summarizeTask = "user_prompt" then jsOrStr (promptParam.getD "") "" else ""

/-- `promptToSend`, lines 343–344 of the source:
`summarizeTask === 'meeting_summary' ? '*' : (summarizePromptRaw || '').trim() || '*'`. -/
def promptToSend (summarizeTask : String) (promptParam : Option String) : String :=
  let raw := summarizePromptRaw summarizeTask promptParam
  if summarizeTask = "meeting_summary" then "*"
  else jsOrStr (jsTrim (jsOrStr raw "")) "*"

/-- The query string attached to the summarize submission, lines
347–351 of the source. -/
def summarizeQuery (summarizeTask : String) (promptParam : Option String)
    (thinking : Bool) : List (String × Json) :=
  [("task", Json.str summarizeTask),
   ("prompt", Json.str (promptToSend summarizeTask promptParam)),
   ("thinking", Json.bool thinking)]

/-- The binary attachment of an item, as the host hands it over:
`fileName` and `mimeType` may be absent. -/
structure BinaryFile where
  fileName : Option String
  mimeType : Option String

/-- JavaScript `a || d` where `a` is a possibly-undefined string. -/
def jsOrStrOpt (a : Option String) (d : String) : String :=
  match a with
  | none => d
  | some s => jsOrStr s d

/-- `fileName = binaryData.fileName || 'audio'`, line 360. -/
def formFileName (b : BinaryFile) : String :=
  jsOrStrOpt b.fileName "audio"

/-- `mimeType = binaryData.mimeType || 'audio/mpeg'`, line 361. -/
def formMimeType (b : BinaryFile) : String :=
  jsOrStrOpt b.mimeType "audio/mpeg"

/-- One entry of the outgoing multipart form. -/
inductive FormEntry where
  | file (fieldName fileName mimeType : String)
  | field (name value : String)
deriving DecidableEq

/-- The multipart form built at lines 359–368: the audio blob under
form field `file` with the defaulted file name and MIME type, plus a
`model` field when a model was selected. -/
def buildForm (b : BinaryFile) (model : Option String) : List FormEntry :=
  [FormEntry.file "file" (formFileName b) (formMimeType b)] ++
    (match model with
      | some m => [FormEntry.field "model" m]
      | none => [])

/-- The start of the output record, lines 429–432: the task tag and
`source_file: binaryData.fileName` — the raw, undefaulted file name.
Values are `Option Json` because `source_file` holds `undefined` when
the attachment has no file name. -/
def outputBase (task : String) (b : BinaryFile) : List (String × Option Json) :=
  [("task", some (Json.str task)),
   ("source_file", b.fileName.map Json.str)]

/-- Lookup in an output record: `some v` when the key is present with
(possibly undefined) value `v`. -/
def lookupOutField : List (String × Option Json) → String → Option (Option Json)
  | [], _ => none
  | (k, v) :: rest, key => if k = key then some v else lookupOutField rest key

/-! ## Helper lemmas -/

/-- Characterisation of `isTerminalSuccess`: the explicit terminal
status strings, or a present result field together with the absence of
an explicit still-running status. -/
lemma isTerminalSuccess_iff (p : Option Json) :
    isTerminalSuccess p = true ↔
      (normStatus p ∈ successStatuses ∨
        (hasResultField p = true ∧ normStatus p ∉ processingStatuses)) := by
  by_cases h : normStatus p ∈ successStatuses
  · simp [isTerminalSuccess, h]
  · simp [isTerminalSuccess, h]

/-- Characterisation of `isTerminalFailure` by status membership. -/
lemma isTerminalFailure_iff (p : Option Json) :
    isTerminalFailure p = true ↔ normStatus p ∈ failureStatuses := by
  simp [isTerminalFailure]

/-- A success status string is never empty. -/
lemma success_mem_ne_empty {t : String} (h : t ∈ successStatuses) : t ≠ "" := by
  simp only [successStatuses, List.mem_cons, List.not_mem_nil, or_false] at h
  rcases h with h | h | h | h <;> simp [h]

/-- A success status string is never a processing status string. -/
lemma success_processing_disjoint {t : String} (h : t ∈ successStatuses) :
    t ∉ processingStatuses := by
  simp only [successStatuses, List.mem_cons, List.not_mem_nil, or_false] at h
  rcases h with h | h | h | h <;> simp [h, processingStatuses]

/-- `normStatus` of a singleton object carrying the status under
`status`. -/
lemma normStatus_status_singleton (s : String) :
    normStatus (some (Json.obj [("status", Json.str s)])) = jsToLower (jsTrim s) := by
  simp only [normStatus, jget, lookupField, normalizeStatus, jsOrStr]
  split <;> simp_all

/-- `normStatus` of a singleton object carrying the status under
`state`. -/
lemma normStatus_state_singleton (s : String) :
    normStatus (some (Json.obj [("state", Json.str s)])) = jsToLower (jsTrim s) := by
  simp only [normStatus, jget, lookupField, normalizeStatus, jsOrStr]
  split <;> simp_all

/-- `normStatus` of a singleton object carrying the status under
`task_status`. -/
lemma normStatus_task_status_singleton (s : String) :
    normStatus (some (Json.obj [("task_status", Json.str s)])) = jsToLower (jsTrim s) := by
  simp only [normStatus, jget, lookupField, normalizeStatus, jsOrStr]
  split <;> simp_all

/-- The classifiers only look at the chained status and the result
probe. -/
lemma isTerminalSuccess_congr {p q : Option Json} (h1 : normStatus p = normStatus q)
    (h2 : hasResultField p = hasResultField q) :
    isTerminalSuccess p = isTerminalSuccess q := by
  simp [isTerminalSuccess, h1, h2]

/-- The failure classifier only looks at the chained status. -/
lemma isTerminalFailure_congr {p q : Option Json} (h1 : normStatus p = normStatus q) :
    isTerminalFailure p = isTerminalFailure q := by
  simp [isTerminalFailure, h1]

/-- Dropping a leading field whose key is none of the wrapper fields
leaves the result probe unchanged. -/
lemma hasResultField_cons (k : String) (v : Json) (rest : List (String × Json))
    (h1 : k ≠ "result") (h2 : k ≠ "data") (h3 : k ≠ "output") (h4 : k ≠ "response") :
    hasResultField (some (Json.obj ((k, v) :: rest))) =
      hasResultField (some (Json.obj rest)) := by
  simp [hasResultField, jget, lookupField, h1, h2, h3, h4]

/-- `normalizeStatus` of an undefined value. -/
lemma normalizeStatus_none : normalizeStatus none = "" := rfl

/-- A leading `status` field that normalises to the empty string is
invisible to the status chain when no other `status` field follows. -/
lemma normStatus_cons_status_empty (v : Json) (rest : List (String × Json))
    (hv : normalizeStatus (some v) = "") (hr : lookupField rest "status" = none) :
    normStatus (some (Json.obj (("status", v) :: rest))) =
      normStatus (some (Json.obj rest)) := by
  simp [normStatus, jget, lookupField, hv, hr, jsOrStr, normalizeStatus_none]

/-- A leading `state` field that normalises to the empty string is
invisible to the status chain when no other `state` field follows. -/
lemma normStatus_cons_state_empty (v : Json) (rest : List (String × Json))
    (hv : normalizeStatus (some v) = "") (hr : lookupField rest "state" = none) :
    normStatus (some (Json.obj (("state", v) :: rest))) =
      normStatus (some (Json.obj rest)) := by
  simp [normStatus, jget, lookupField, hv, hr, jsOrStr, normalizeStatus_none]

/-- Unfolding one iteration of the poll loop when every attempt in
range stays non-terminal: the loop exhausts its budget and times out
having made exactly its budget of requests. -/
lemma pollAux_timeout (resp : Nat → Json) (tid : Json) (i n : Nat) :
    ∀ remaining made : Nat,
      (∀ k, made ≤ k → k < made + remaining → stillRunning (resp k)) →
      pollAux resp tid i n made remaining =
        .timedOut (timeoutMessage tid n) i (made + remaining) := by
  intro remaining
  induction remaining with
  | zero => intro made _; simp [pollAux]
  | succ r ih =>
    intro made h
    obtain ⟨hf, hs⟩ := h made (Nat.le_refl _) (by omega)
    rw [pollAux]
    simp only [hf, hs, Bool.false_eq_true, if_false]
    rw [ih (made + 1) (fun k h1 h2 => h k (by omega) (by omega))]
    congr 1
    omega

/-- The loop never issues more requests than it has attempts. -/
lemma pollAux_calls_le (resp : Nat → Json) (tid : Json) (i n : Nat) :
    ∀ remaining made : Nat,
      (pollAux resp tid i n made remaining).calls ≤ made + remaining := by
  intro remaining
  induction remaining with
  | zero => intro made; simp [pollAux, PollOutcome.calls]
  | succ r ih =>
    intro made
    rw [pollAux]
    by_cases hf : isTerminalFailure (some (resp made)) = true
    · simp only [hf, if_true, PollOutcome.calls]
      omega
    · by_cases hs : isTerminalSuccess (some (resp made)) = true
      · simp only [hf, hs, Bool.false_eq_true, if_false, if_true, PollOutcome.calls]
        omega
      · simp only [hf, hs, Bool.false_eq_true, if_false]
        calc (pollAux resp tid i n (made + 1) r).calls ≤ (made + 1) + r := ih (made + 1)
          _ ≤ made + (r + 1) := by omega

/-- If the first terminal classification the loop meets is a failure at
the `(k+1)`-th request, the loop stops right there with the failure
message and has issued exactly `k+1` requests. -/
lemma pollAux_fail (resp : Nat → Json) (tid : Json) (i n : Nat) :
    ∀ remaining made k : Nat, made ≤ k → k < made + remaining →
      (∀ j, made ≤ j → j < k → stillRunning (resp j)) →
      isTerminalFailure (some (resp k)) = true →
      pollAux resp tid i n made remaining =
        .failed (failureMessage tid (resp k)) i (k + 1) := by
  intro remaining
  induction remaining with
  | zero => intro made k h1 h2 _ _; omega
  | succ r ih =>
    intro made k h1 h2 hstill hfail
    rcases Nat.eq_or_lt_of_le h1 with heq | hlt
    · subst heq
      rw [pollAux]
      simp [hfail]
    · obtain ⟨hf, hs⟩ := hstill made (Nat.le_refl _) hlt
      rw [pollAux]
      simp only [hf, hs, Bool.false_eq_true, if_false]
      exact ih (made + 1) k hlt (by omega) (fun j hj1 hj2 => hstill j (by omega) hj2) hfail

/-! ## Claim theorems -/

/-- C1: `isTerminalSuccess` returns true exactly when the carried
status (the first of `status`/`state`/`task_status` that normalises to
a non-empty string, case-folded and trimmed) is a terminal-success
string, or at least one of the `result`/`data`/`output`/`response`
fields is present and the carried status is not a processing string.
In particular a terminal-success status carried by any of the three
field names yields true, and a processing carried status yields false
even when a result field is present. -/
theorem claim_C1_isTerminalSuccess :
    (∀ p : Option Json, isTerminalSuccess p = true ↔
      (normStatus p ∈ successStatuses ∨
        (hasResultField p = true ∧ normStatus p ∉ processingStatuses)))
    ∧ (∀ s : String, jsToLower (jsTrim s) ∈ successStatuses →
        isTerminalSuccess (some (Json.obj [("status", Json.str s)])) = true ∧
        isTerminalSuccess (some (Json.obj [("state", Json.str s)])) = true ∧
        isTerminalSuccess (some (Json.obj [("task_status", Json.str s)])) = true)
    ∧ (∀ p : Option Json, normStatus p ∈ processingStatuses →
        isTerminalSuccess p = false) := by
  refine ⟨isTerminalSuccess_iff, fun s hs => ?_, fun p hp => ?_⟩
  · refine ⟨?_, ?_, ?_⟩
    · exact (isTerminalSuccess_iff _).mpr
        (Or.inl (by rw [normStatus_status_singleton]; exact hs))
    · exact (isTerminalSuccess_iff _).mpr
        (Or.inl (by rw [normStatus_state_singleton]; exact hs))
    · exact (isTerminalSuccess_iff _).mpr
        (Or.inl (by rw [normStatus_task_status_singleton]; exact hs))
  · have h1 : ¬ isTerminalSuccess p = true := by
      rw [isTerminalSuccess_iff]
      rintro (h | ⟨_, h2⟩)
      · exact success_processing_disjoint h hp
      · exact h2 hp
    simpa using h1

/-- Witness for C1 at concrete payloads: `Completed` carried by each of
the three field names classifies as success, and a `processing` status
with a result field present does not. -/
theorem claim_C1_isTerminalSuccess_witness :
    (isTerminalSuccess (some (Json.obj [("status", Json.str " Completed ")])) = true ∧
      isTerminalSuccess (some (Json.obj [("state", Json.str " Completed ")])) = true ∧
      isTerminalSuccess (some (Json.obj [("task_status", Json.str " Completed ")])) = true) ∧
    isTerminalSuccess
      (some (Json.obj [("status", Json.str "processing"), ("result", Json.num 1)])) = false :=
  ⟨claim_C1_isTerminalSuccess.2.1 " Completed " (by decide),
   claim_C1_isTerminalSuccess.2.2 _ (by decide)⟩

/-- C9: in both classifiers, a `status` (or `state`) field holding a
non-string value or a string that trims and case-folds to the empty
string is classified exactly as if the field were absent — the chain
falls through to the next candidate — and in particular
`(status = "", state = "failed")` classifies as a terminal failure. -/
theorem claim_C9_empty_status_falls_through :
    (∀ (v : Json) (rest : List (String × Json)),
      normalizeStatus (some v) = "" → lookupField rest "status" = none →
        isTerminalSuccess (some (Json.obj (("status", v) :: rest))) =
          isTerminalSuccess (some (Json.obj rest)) ∧
        isTerminalFailure (some (Json.obj (("status", v) :: rest))) =
          isTerminalFailure (some (Json.obj rest)))
    ∧ (∀ (v : Json) (rest : List (String × Json)),
      normalizeStatus (some v) = "" → lookupField rest "state" = none →
        isTerminalSuccess (some (Json.obj (("state", v) :: rest))) =
          isTerminalSuccess (some (Json.obj rest)) ∧
        isTerminalFailure (some (Json.obj (("state", v) :: rest))) =
          isTerminalFailure (some (Json.obj rest)))
    ∧ isTerminalFailure
        (some (Json.obj [("status", Json.str ""), ("state", Json.str "failed")])) = true := by
  refine ⟨fun v rest hv hr => ?_, fun v rest hv hr => ?_, by decide⟩
  · have hn := normStatus_cons_status_empty v rest hv hr
    have hres := hasResultField_cons "status" v rest
      (by decide) (by decide) (by decide) (by decide)
    exact ⟨isTerminalSuccess_congr hn hres, isTerminalFailure_congr hn⟩
  · have hn := normStatus_cons_state_empty v rest hv hr
    have hres := hasResultField_cons "state" v rest
      (by decide) (by decide) (by decide) (by decide)
    exact ⟨isTerminalSuccess_congr hn hres, isTerminalFailure_congr hn⟩

/-- Witness for C9 at a concrete payload: a non-string `status` value
falls through to a `state` of `failed`. -/
theorem claim_C9_empty_status_falls_through_witness :
    isTerminalSuccess (some (Json.obj [("status", Json.num 7), ("state", Json.str "failed")])) =
      isTerminalSuccess (some (Json.obj [("state", Json.str "failed")])) ∧
    isTerminalFailure (some (Json.obj [("status", Json.num 7), ("state", Json.str "failed")])) =
      isTerminalFailure (some (Json.obj [("state", Json.str "failed")])) :=
  claim_C9_empty_status_falls_through.1 (Json.num 7) [("state", Json.str "failed")] rfl rfl

/-- C2: with a task handle present, if none of the first
`maxPollAttempts` status responses classifies as terminal success or
failure, the loop raises the timeout error naming the handle and the
attempt count after exactly `maxPollAttempts` requests; and on any
input whatsoever the loop issues at most `maxPollAttempts` status
requests. -/
theorem claim_C2_poll_timeout_bound :
    (∀ (resp : Nat → Json) (tid : Json) (i n : Nat),
      (∀ k, k < n → stillRunning (resp k)) →
      pollLoop resp tid i n = .timedOut (timeoutMessage tid n) i n)
    ∧ (∀ (resp : Nat → Json) (tid : Json) (i n : Nat),
      (pollLoop resp tid i n).calls ≤ n) := by
  constructor
  · intro resp tid i n h
    have := pollAux_timeout resp tid i n n 0 (fun k _ h2 => h k (by omega))
    simpa [pollLoop] using this
  · intro resp tid i n
    have := pollAux_calls_le resp tid i n n 0
    simpa [pollLoop] using this

/-- Witness for C2: two always-`processing` responses exhaust a
two-attempt budget and time out with the exact message. -/
theorem claim_C2_poll_timeout_bound_witness :
    pollLoop (fun _ => Json.obj [("status", Json.str "processing")]) (Json.str "t1") 0 2 =
      PollOutcome.timedOut
        "Task t1 did not complete within polling limit (2 attempts)" 0 2 :=
  claim_C2_poll_timeout_bound.1 (fun _ => Json.obj [("status", Json.str "processing")])
    (Json.str "t1") 0 2 (fun _ _ => ⟨rfl, rfl⟩)

/-- C3: a payload whose chained normalised status is a failure string
classifies as terminal failure; when the loop meets such a payload at
its `(k+1)`-th request after only still-running responses, it stops
right there — `k+1` requests, no more — with the failure outcome
tagged with the item index; and the message is built from the `error`
field when it is a non-empty string, else the `message` field, else
the serialised raw payload. -/
theorem claim_C3_failure_stops_polling :
    (∀ p : Option Json, normStatus p ∈ failureStatuses → isTerminalFailure p = true)
    ∧ (∀ (resp : Nat → Json) (tid : Json) (i n k : Nat),
      k < n → (∀ j, j < k → stillRunning (resp j)) →
      isTerminalFailure (some (resp k)) = true →
      pollLoop resp tid i n = .failed (failureMessage tid (resp k)) i (k + 1))
    ∧ (∀ (tid p : Json) (e : String), jget (some p) "error" = some (Json.str e) → e ≠ "" →
        failureMessage tid p = "Task " ++ jsToString tid ++ " failed: " ++ e)
    ∧ (∀ (tid p : Json) (m : String), jget (some p) "error" = none →
        jget (some p) "message" = some (Json.str m) → m ≠ "" →
        failureMessage tid p = "Task " ++ jsToString tid ++ " failed: " ++ m)
    ∧ (∀ tid p : Json, jget (some p) "error" = none → jget (some p) "message" = none →
        failureMessage tid p = "Task " ++ jsToString tid ++ " failed: " ++ stringifyJson p) := by
  refine ⟨fun p hp => (isTerminalFailure_iff p).mpr hp,
    fun resp tid i n k hk hstill hfail => ?_, fun tid p e he hne => ?_,
    fun tid p m he hm hne => ?_, fun tid p he hm => ?_⟩
  · have := pollAux_fail resp tid i n n 0 k (Nat.zero_le _) (by omega)
      (fun j _ hj2 => hstill j hj2) hfail
    simpa [pollLoop] using this
  · simp [failureMessage, jsOr, he, truthy, hne, jsShow, jsToString]
  · simp [failureMessage, jsOr, he, hm, truthy, hne, jsShow, jsToString]
  · simp [failureMessage, jsOr, he, hm, truthy, jsShow]

/-- Witness for C3: one `processing` response, then a `failed` payload
carrying `error: "bad audio"`; the loop issues exactly two requests and
raises with the backend's error text. -/
theorem claim_C3_failure_stops_polling_witness :
    pollLoop
      (fun j => if j = 0 then Json.obj [("status", Json.str "processing")]
        else Json.obj [("status", Json.str "failed"), ("error", Json.str "bad audio")])
      (Json.str "t") 3 5 =
    PollOutcome.failed "Task t failed: bad audio" 3 2 :=
  claim_C3_failure_stops_polling.2.1
    (fun j => if j = 0 then Json.obj [("status", Json.str "processing")]
      else Json.obj [("status", Json.str "failed"), ("error", Json.str "bad audio")])
    (Json.str "t") 3 5 1 (by omega)
    (fun j hj => by interval_cases j; exact ⟨rfl, rfl⟩) rfl

/-- One step of the spec-side `??`-fold. -/
lemma firstNonNull_cons (x : Option Json) (xs : List (Option Json)) (d : Option Json) :
    firstNonNull (x :: xs) d = jsNullish x (firstNonNull xs d) := by
  cases x with
  | none => rfl
  | some v => cases v <;> rfl

/-- Base case of the spec-side `??`-fold. -/
lemma firstNonNull_nil (d : Option Json) : firstNonNull [] d = d := rfl

/-- The clamp keeps its value inside the bounds. -/
lemma clampInt_range (lo hi v : Int) (h : lo ≤ hi) :
    lo ≤ clampInt lo hi v ∧ clampInt lo hi v ≤ hi := by
  simp only [clampInt, min_def, max_def]
  split_ifs <;> omega

/-- Range of a clamped optional value. -/
lemma map_clampInt_range (o : Option Int) (lo hi w : Int) (hlohi : lo ≤ hi)
    (h : o.map (clampInt lo hi) = some w) : lo ≤ w ∧ w ≤ hi := by
  cases o with
  | none => simp at h
  | some v =>
    simp only [Option.map, Option.bind, Option.some.injEq] at h
    rw [← h]
    exact clampInt_range lo hi v hlohi

/-- C4 (amended): `extractTaskId` returns the first truthy value among
`task_id`, `taskId`, `id`, `task.id` in that order — a JavaScript `||`
chain, so a candidate that is present but falsy (such as the empty
string) is skipped like an absent field, and when every candidate is
falsy the (falsy) value of the last candidate is returned.  Each of the
four singleton examples yields `"x"`; `{}` and non-objects yield
`undefined`. -/
theorem claim_C4_extractTaskId_first_truthy :
    (∀ p : Option Json, extractTaskId p =
      (if isObjectLike p then firstTruthy (taskIdCandidates p) else none))
    ∧ extractTaskId (some (Json.obj [("task_id", Json.str "x")])) = some (Json.str "x")
    ∧ extractTaskId (some (Json.obj [("taskId", Json.str "x")])) = some (Json.str "x")
    ∧ extractTaskId (some (Json.obj [("id", Json.str "x")])) = some (Json.str "x")
    ∧ extractTaskId (some (Json.obj [("task", Json.obj [("id", Json.str "x")])])) =
        some (Json.str "x")
    ∧ extractTaskId (some (Json.obj [])) = none
    ∧ extractTaskId (some (Json.str "plain")) = none
    ∧ extractTaskId none = none
    ∧ extractTaskId (some (Json.obj [("task_id", Json.str ""), ("taskId", Json.str "y")])) =
        some (Json.str "y") := by
  refine ⟨fun p => ?_, rfl, rfl, rfl, rfl, rfl, rfl, rfl, rfl⟩
  simp [extractTaskId, taskIdCandidates, firstTruthy, jsOr]

/-- Counterexample for C4 as stated: in
`(task_id = "", taskId = "y")` the first *present* candidate holds
`""`, but `extractTaskId` skips the falsy value and returns `"y"`,
diverging from the spec-side first-present extraction. -/
theorem claim_C4_extractTaskId_cex :
    extractTaskId (some (Json.obj [("task_id", Json.str ""), ("taskId", Json.str "y")])) =
      some (Json.str "y") ∧
    extractTaskIdPresence
        (some (Json.obj [("task_id", Json.str ""), ("taskId", Json.str "y")])) =
      some (Json.str "") ∧
    some (Json.str "y") ≠ some (Json.str "") :=
  ⟨rfl, rfl, by simp⟩

/-- C5 (amended): `unwrapFinalPayload` is a JavaScript `??` chain: it
returns the first wrapper field among `result`/`data`/`output`/
`response` that is present *and not null*, and the whole payload when
every wrapper field is absent or null; it is pure and total by
construction. -/
theorem claim_C5_unwrapFinalPayload_first_non_null :
    (∀ p : Option Json, unwrapFinalPayload p = firstNonNull (wrapperCandidates p) p)
    ∧ unwrapFinalPayload (some (Json.obj [("data", Json.str "x")])) = some (Json.str "x")
    ∧ (∀ fields : List (String × Json),
        lookupField fields "result" = none → lookupField fields "data" = none →
        lookupField fields "output" = none → lookupField fields "response" = none →
        unwrapFinalPayload (some (Json.obj fields)) = some (Json.obj fields)) := by
  refine ⟨fun p => ?_, rfl, fun fields h1 h2 h3 h4 => ?_⟩
  · simp [unwrapFinalPayload, wrapperCandidates, firstNonNull_cons, firstNonNull_nil]
  · simp [unwrapFinalPayload, jget, h1, h2, h3, h4, jsNullish]

/-- Witness for C5 at a payload with no wrapper field: the whole
payload comes back. -/
theorem claim_C5_unwrapFinalPayload_first_non_null_witness :
    unwrapFinalPayload (some (Json.obj [("segments", Json.arr [])])) =
      some (Json.obj [("segments", Json.arr [])]) :=
  claim_C5_unwrapFinalPayload_first_non_null.2.2 [("segments", Json.arr [])] rfl rfl rfl rfl

/-- Counterexample for C5 as stated: in `(result = null, data = "x")`
the first *present* wrapper field holds `null`, but
`unwrapFinalPayload` coalesces past `null` and returns `"x"`,
diverging from the spec-side first-present unwrapping. -/
theorem claim_C5_unwrapFinalPayload_cex :
    unwrapFinalPayload (some (Json.obj [("result", Json.null), ("data", Json.str "x")])) =
      some (Json.str "x") ∧
    unwrapFinalPayloadPresence
        (some (Json.obj [("result", Json.null), ("data", Json.str "x")])) =
      some Json.null ∧
    some (Json.str "x") ≠ some Json.null :=
  ⟨rfl, rfl, by simp⟩

/-- C6 (amended): for a summarize item, when the per-task key was never
set and the legacy key holds a number other than the recognised legacy
values (`500`/`1000` for the interval, `200`/`300` for max attempts —
not merely "other than the default"), the legacy value replaces the
per-task default; in every other case the per-task parameter (its
stored value if set, its declared default otherwise) is used
unchanged. -/
theorem claim_C6_legacy_override :
    (∀ (params : List (String × Json)) (raw : Json) (l : Int),
      lookupField params "pollIntervalMsSummarize" = none →
      lookupField params "pollIntervalMs" = some raw →
      jsNumber raw = some l → l ≠ 500 → l ≠ 1000 →
      summarizeIntervalMs params = some l)
    ∧ (∀ (params : List (String × Json)) (v : Json),
        lookupField params "pollIntervalMsSummarize" = some v →
        summarizeIntervalMs params = jsNumber v)
    ∧ (∀ params : List (String × Json),
        lookupField params "pollIntervalMsSummarize" = none →
        lookupField params "pollIntervalMs" = none →
        summarizeIntervalMs params = some pollIntervalMsSummarizeDefault)
    ∧ (∀ (params : List (String × Json)) (raw : Json) (l : Int),
      lookupField params "maxPollAttemptsSummarize" = none →
      lookupField params "maxPollAttempts" = some raw →
      jsNumber raw = some l → l ≠ 200 → l ≠ 300 →
      summarizeMaxAttempts params = some l)
    ∧ (∀ (params : List (String × Json)) (v : Json),
        lookupField params "maxPollAttemptsSummarize" = some v →
        summarizeMaxAttempts params = jsNumber v)
    ∧ (∀ params : List (String × Json),
        lookupField params "maxPollAttemptsSummarize" = none →
        lookupField params "maxPollAttempts" = none →
        summarizeMaxAttempts params = some maxPollAttemptsSummarizeDefault) := by
  refine ⟨fun params raw l h1 h2 h3 h4 h5 => ?_, fun params v h => ?_, fun params h1 h2 => ?_,
    fun params raw l h1 h2 h3 h4 h5 => ?_, fun params v h => ?_, fun params h1 h2 => ?_⟩
  · simp [summarizeIntervalMs, readNumParam, h1, h2, h3, h4, h5]
  · simp [summarizeIntervalMs, readNumParam, h]
  · simp [summarizeIntervalMs, readNumParam, h1, h2]
  · simp [summarizeMaxAttempts, readNumParam, h1, h2, h3, h4, h5]
  · simp [summarizeMaxAttempts, readNumParam, h]
  · simp [summarizeMaxAttempts, readNumParam, h1, h2]

/-- Witness for C6: clearly-custom legacy values survive into the
summarize policy. -/
theorem claim_C6_legacy_override_witness :
    summarizeIntervalMs [("pollIntervalMs", Json.num 750)] = some 750 ∧
    summarizeMaxAttempts [("maxPollAttempts", Json.num 42)] = some 42 :=
  ⟨claim_C6_legacy_override.1 _ (Json.num 750) 750 rfl rfl rfl (by decide) (by decide),
   claim_C6_legacy_override.2.2.2.1 _ (Json.num 42) 42 rfl rfl rfl (by decide) (by decide)⟩

/-- Counterexample for C6 as stated: a legacy `pollIntervalMs` of
`1000` (not the declared default `500`, hence a "non-default value")
with the per-task key unset does *not* override — the per-task default
`20000` is used; likewise a legacy `maxPollAttempts` of `300` (declared
default `200`) does not override the per-task default `500`. -/
theorem claim_C6_legacy_override_cex :
    summarizeIntervalMs [("pollIntervalMs", Json.num 1000)] = some 20000 ∧
    (1000 : Int) ≠ pollIntervalMsDefault ∧
    some (20000 : Int) ≠ some (1000 : Int) ∧
    summarizeMaxAttempts [("maxPollAttempts", Json.num 300)] = some 500 ∧
    (300 : Int) ≠ maxPollAttemptsDefault ∧
    some (500 : Int) ≠ some (300 : Int) :=
  ⟨rfl, by decide, by decide, rfl, by decide, by decide⟩

/-- C7: the clamp sends any out-of-range configured value to the
nearest bound and leaves in-range values unchanged, and on every
resolution path (legacy substitution included) the values the loop
actually uses lie in `[500, 900000]` and `[1, 1000]` whenever they are
numbers at all. -/
theorem claim_C7_clamp :
    (∀ v : Int,
      (v < 500 → clampInt 500 900000 v = 500) ∧
      (900000 < v → clampInt 500 900000 v = 900000) ∧
      (500 ≤ v → v ≤ 900000 → clampInt 500 900000 v = v) ∧
      (v < 1 → clampInt 1 1000 v = 1) ∧
      (1000 < v → clampInt 1 1000 v = 1000) ∧
      (1 ≤ v → v ≤ 1000 → clampInt 1 1000 v = v))
    ∧ (∀ (task : TaskKind) (params : List (String × Json)) (w : Int),
        effectiveIntervalMs task params = some w → 500 ≤ w ∧ w ≤ 900000)
    ∧ (∀ (task : TaskKind) (params : List (String × Json)) (w : Int),
        effectiveMaxAttempts task params = some w → 1 ≤ w ∧ w ≤ 1000) := by
  refine ⟨fun v => ?_, fun task params w h => ?_, fun task params w h => ?_⟩
  · refine ⟨fun h => ?_, fun h => ?_, fun h1 h2 => ?_, fun h => ?_, fun h => ?_,
      fun h1 h2 => ?_⟩ <;>
      (simp only [clampInt, min_def, max_def]; split_ifs <;> omega)
  · unfold effectiveIntervalMs at h
    exact map_clampInt_range _ 500 900000 w (by norm_num) h
  · unfold effectiveMaxAttempts at h
    exact map_clampInt_range _ 1 1000 w (by norm_num) h

/-- Witness for C7: a legacy-substituted summarize interval of `50` is
clamped up to `500`, inside the range. -/
theorem claim_C7_clamp_witness :
    effectiveIntervalMs TaskKind.summarize [("pollIntervalMs", Json.num 50)] = some 500 ∧
    (500 ≤ (500 : Int) ∧ (500 : Int) ≤ 900000) :=
  ⟨by decide, claim_C7_clamp.2.1 TaskKind.summarize [("pollIntervalMs", Json.num 50)] 500
    (by decide)⟩

/-- C8: the `prompt` query value of a summarize submission is the
literal `*` for the canned meeting-summary mode, and otherwise the
trimmed user prompt with `*` as the fallback for an empty trim; in
particular sub-task `user_prompt` with an empty prompt sends `*`. -/
theorem claim_C8_effective_prompt :
    (∀ p : Option String, promptToSend "meeting_summary" p = "*")
    ∧ (∀ s : String, promptToSend "user_prompt" (some s) =
        (if jsTrim s = "" then "*" else jsTrim s))
    ∧ lookupField (summarizeQuery "user_prompt" (some "") false) "prompt" =
        some (Json.str "*") := by
  refine ⟨fun p => rfl, fun s => ?_, rfl⟩
  by_cases hs : s = ""
  · simp [promptToSend, summarizePromptRaw, jsOrStr, hs]
  · simp [promptToSend, summarizePromptRaw, jsOrStr, hs]

/-- C10: when the binary attachment has no file name, the multipart
form uploads the file under the default name `audio`, while the output
record's `source_file` field receives the raw absent file name —
present as a key but `undefined` — with no default applied. -/
theorem claim_C10_source_file_undefaulted :
    ∀ (t : String) (m mo : Option String),
      formFileName ⟨none, m⟩ = "audio" ∧
      (buildForm ⟨none, m⟩ mo).head? =
        some (FormEntry.file "file" "audio" (formMimeType ⟨none, m⟩)) ∧
      lookupOutField (outputBase t ⟨none, m⟩) "source_file" = some none := by
  intro t m mo
  exact ⟨rfl, by simp [buildForm, formFileName, jsOrStrOpt], rfl⟩
